import Mathlib

/-!
Verification of the cell-comparison core of the Excel comparison tool
(`excel_comparator_advanced.py`).

Modelling choices:
* A cell value is `null` (Python `None`), a number (Python `int`/`float`,
  modelled as an exact rational — Python `==` identifies `5` and `5.0`,
  so one numeric constructor over `ℚ` matches Python equality), or a string.
* Python `float(...)` applied to a string is abstracted by a parameter
  `pf : String → Option ℚ` (`some` = parse success, `none` = `ValueError`);
  all theorems hold for every such parser.  `float(None)` raises, so
  `pyFloat` is `none` on `null`.
* Workbook I/O outcomes (copy, the three loads, per-sheet exceptions, save)
  are modelled by an explicit environment; the file-level function returns
  the summary dictionary together with which workbooks were opened and
  which were closed on the taken exit path.
-/

/-- A spreadsheet cell value as read by openpyxl: `None`, a number, or text. -/
inductive CellValue where
  | null : CellValue
  | num : ℚ → CellValue
  | str : String → CellValue
  deriving DecidableEq, Repr

/-- Python `float(value)`: fails on `None`, identity on numbers, parse on strings. -/
def pyFloat (pf : String → Option ℚ) : CellValue → Option ℚ
  | CellValue.null => Option.none
  | CellValue.num q => some q
  | CellValue.str s => pf s

/-- `is_numeric` from the source: false for null/empty string,
otherwise true iff `float(value)` succeeds. -/
def is_numeric (pf : String → Option ℚ) (v : CellValue) : Bool :=
  if v = CellValue.null ∨ v = CellValue.str "" then false
  else (pyFloat pf v).isSome

/-- The emptiness test of the source's skip rule:
`value is None or value == ""`. -/
def isEmptyVal : CellValue → Bool
  | CellValue.null => true
  | CellValue.num _ => false
  | CellValue.str s => s = ""

/-- `float(value) if value is not None else 0`, as in the both-numeric branch. -/
def floatOrZero (pf : String → Option ℚ) (v : CellValue) : Option ℚ :=
  if v = CellValue.null then some 0 else pyFloat pf v

/-- Classification of a recorded difference. -/
inductive DiffKind where
  | numeric : DiffKind
  | textual : DiffKind
  deriving DecidableEq, Repr

/-- The per-coordinate decision table of `compare_single_sheet`:
`none` means no action (skip), `some (v, k)` means write `v` to the output
cell and record a difference of kind `k`. -/
def compareCell (pf : String → Option ℚ) (new_value prev_value : CellValue) :
    Option (CellValue × DiffKind) :=
  if isEmptyVal new_value && isEmptyVal prev_value then
    Option.none
  else if new_value = prev_value then
    Option.none
  else if is_numeric pf new_value && is_numeric pf prev_value then
    match floatOrZero pf new_value, floatOrZero pf prev_value with
    | some new_num, some prev_num =>
        some (CellValue.num (new_num - prev_num), DiffKind.numeric)
    | _, _ =>
        some (new_value, DiffKind.textual)
  else if is_numeric pf new_value && !(is_numeric pf prev_value) then
    match pyFloat pf new_value with
    | some new_num => some (CellValue.num new_num, DiffKind.numeric)
    | Option.none => Option.none
  else if !(is_numeric pf new_value) && is_numeric pf prev_value then
    some (new_value, DiffKind.textual)
  else
    some (new_value, DiffKind.textual)

/-- A sheet: its occupied extent and the value at each 1-based coordinate
(out-of-range coordinates read as `null`, as openpyxl cells do). -/
structure Sheet where
  max_row : ℕ
  max_col : ℕ
  val : ℕ → ℕ → CellValue

/-- The `sheet_result` dictionary of `compare_single_sheet`. -/
structure SheetResult where
  differences_found : Bool
  differences_count : ℕ
  numeric_differences : ℕ
  text_differences : ℕ
  cells_compared : ℕ
  deriving DecidableEq, Repr

def initSheetResult : SheetResult :=
  { differences_found := false
    differences_count := 0
    numeric_differences := 0
    text_differences := 0
    cells_compared := 0 }

/-- The mutable state of one sheet traversal: the output grid and the counters. -/
structure SheetState where
  output : ℕ → ℕ → CellValue
  result : SheetResult

/-- Write value `v` at coordinate `(r, c)` of a grid. -/
def writeCell (g : ℕ → ℕ → CellValue) (r c : ℕ) (v : CellValue) :
    ℕ → ℕ → CellValue :=
  fun r' c' => if r' = r ∧ c' = c then v else g r' c'

/-- Counter updates performed when a difference of kind `k` is recorded. -/
def recordDiff (res : SheetResult) (k : DiffKind) : SheetResult :=
  { res with
    differences_found := true
    differences_count := res.differences_count + 1
    numeric_differences :=
      res.numeric_differences + (match k with | DiffKind.numeric => 1 | DiffKind.textual => 0)
    text_differences :=
      res.text_differences + (match k with | DiffKind.numeric => 0 | DiffKind.textual => 1) }

/-- One iteration of the inner loop body of `compare_single_sheet` at
coordinate `rc`: bump `cells_compared`, then apply the decision table. -/
def stepCell (pf : String → Option ℚ) (new_sheet prev_sheet : Sheet)
    (st : SheetState) (rc : ℕ × ℕ) : SheetState :=
  let res := { st.result with cells_compared := st.result.cells_compared + 1 }
  match compareCell pf (new_sheet.val rc.1 rc.2) (prev_sheet.val rc.1 rc.2) with
  | Option.none => { st with result := res }
  | some (v, k) =>
      { output := writeCell st.output rc.1 rc.2 v
        result := recordDiff res k }

/-- The row-major coordinate sequence
`for row in range(1, max_row + 1): for col in range(1, max_col + 1)`. -/
def coords (max_row max_col : ℕ) : List (ℕ × ℕ) :=
  (List.range max_row).flatMap fun r =>
    (List.range max_col).map fun c => (r + 1, c + 1)

/-- `compare_single_sheet`: traverse the union extent of the two sheets,
starting from the template-derived output grid `out0`. -/
def compare_single_sheet (pf : String → Option ℚ) (new_sheet prev_sheet : Sheet)
    (out0 : ℕ → ℕ → CellValue) : SheetState :=
  let mr := max new_sheet.max_row prev_sheet.max_row
  let mc := max new_sheet.max_col prev_sheet.max_col
  (coords mr mc).foldl (stepCell pf new_sheet prev_sheet)
    { output := out0, result := initSheetResult }

/-- A concrete sample float-parser for witnesses: a finite lookup table
standing in for Python string-to-float conversion on the strings the
witnesses use ("5" and "12" parse; everything else raises). -/
def sampleParse (s : String) : Option ℚ :=
  if s = "5" then some 5
  else if s = "12" then some 12
  else Option.none

/-!  File-level orchestration (`compare_sheets`) and run-level
orchestration (`run_comparison`), with I/O outcomes made explicit. -/

/-- The `status` field values a file summary can carry. -/
inductive FileStatus where
  | completed : FileStatus
  | failed : FileStatus
  deriving DecidableEq, Repr

/-- The `file_summary` dictionary of `compare_sheets`; `status` is
`Option.none` when the `status` key was never set (the early returns). -/
structure FileSummary where
  filename : String
  sheets_processed : ℕ
  total_differences : ℕ
  sheet_details : List (String × SheetResult)
  errors : List String
  status : Option FileStatus

def initFileSummary (name : String) : FileSummary :=
  { filename := name
    sheets_processed := 0
    total_differences := 0
    sheet_details := []
    errors := []
    status := Option.none }

/-- A loaded workbook: its sheet names and the grid behind each name. -/
structure Workbook where
  sheetnames : List String
  grid : String → Sheet

/-- The I/O outcomes one call of `compare_sheets` can observe:
whether the template copy succeeds, each of the three sequential
`load_workbook` calls (`Option.none` = the call raises), which sheet
comparisons raise, and whether the final save succeeds. -/
structure FileEnv where
  filename : String
  copy_ok : Bool
  load_new : Option Workbook
  load_prev : Option Workbook
  load_output : Option Workbook
  sheet_fails : String → Bool
  save_ok : Bool

/-- What `compare_sheets` did on the exit path it took: the returned
summary, plus which workbook handles had been opened and which were
closed before returning. -/
structure CompareEffects where
  summary : FileSummary
  opened_new : Bool
  opened_prev : Bool
  opened_output : Bool
  closed_new : Bool
  closed_prev : Bool
  closed_output : Bool

/-- The common sheet-name set of the three workbooks (the intersection,
determinized in the order of the new workbook's sheet list). -/
def commonSheets (nwb pwb owb : Workbook) : List String :=
  nwb.sheetnames.filter fun s =>
    pwb.sheetnames.contains s && owb.sheetnames.contains s

/-- The body of the per-sheet loop of `compare_sheets`: a raising sheet
comparison appends an error and continues; otherwise the sheet result is
recorded and the file totals advance. -/
def processSheet (pf : String → Option ℚ) (nwb pwb owb : Workbook)
    (fails : String → Bool) (fs : FileSummary) (name : String) : FileSummary :=
  if fails name then
    { fs with errors := fs.errors ++ ["Error comparing sheet " ++ name] }
  else
    let sr := (compare_single_sheet pf (nwb.grid name) (pwb.grid name)
      (owb.grid name).val).result
    { fs with
      sheet_details := fs.sheet_details ++ [(name, sr)]
      total_differences := fs.total_differences + sr.differences_count
      sheets_processed := fs.sheets_processed + 1 }

/-- `compare_sheets`: copy the template (a failure there propagates to the
caller), load the three workbooks, compare the common sheets, save, and
close.  Workbooks are closed only in the `finally` of the save step; the
two early returns (load failure, no common sheets) bypass it. -/
def compare_sheets (pf : String → Option ℚ) (env : FileEnv) :
    Except String CompareEffects :=
  if !env.copy_ok then
    Except.error ("Error processing " ++ env.filename)
  else
    let fs0 := initFileSummary env.filename
    match env.load_new with
    | Option.none =>
        Except.ok
          { summary := { fs0 with errors := ["Error loading workbooks"] }
            opened_new := false, opened_prev := false, opened_output := false
            closed_new := false, closed_prev := false, closed_output := false }
    | some nwb =>
      match env.load_prev with
      | Option.none =>
          Except.ok
            { summary := { fs0 with errors := ["Error loading workbooks"] }
              opened_new := true, opened_prev := false, opened_output := false
              closed_new := false, closed_prev := false, closed_output := false }
      | some pwb =>
        match env.load_output with
        | Option.none =>
            Except.ok
              { summary := { fs0 with errors := ["Error loading workbooks"] }
                opened_new := true, opened_prev := true, opened_output := false
                closed_new := false, closed_prev := false, closed_output := false }
        | some owb =>
          let common := commonSheets nwb pwb owb
          if common.isEmpty then
            Except.ok
              { summary :=
                  { fs0 with errors := ["No common sheets found in " ++ env.filename] }
                opened_new := true, opened_prev := true, opened_output := true
                closed_new := false, closed_prev := false, closed_output := false }
          else
            let fs1 := common.foldl (processSheet pf nwb pwb owb env.sheet_fails) fs0
            let fs2 :=
              if env.save_ok then
                { fs1 with status := some FileStatus.completed }
              else
                { fs1 with
                  errors := fs1.errors ++ ["Error saving output file"]
                  status := some FileStatus.failed }
            Except.ok
              { summary := fs2
                opened_new := true, opened_prev := true, opened_output := true
                closed_new := true, closed_prev := true, closed_output := true }

/-- The inputs one run observes: the matched filename set and the I/O
outcomes for each file. -/
structure RunEnv where
  matched : List String
  fenv : String → FileEnv

/-- The `summary_data` of a run, plus whether the summary report was
generated (handed to the reporting collaborator) before returning. -/
structure RunSummary where
  files_processed : List FileSummary
  total_differences : ℕ
  errors : List String
  report_generated : Bool

def initRunSummary : RunSummary :=
  { files_processed := []
    total_differences := 0
    errors := []
    report_generated := false }

/-- The body of the per-file loop of `run_comparison`: a raising
`compare_sheets` call is caught and recorded as a run-level error;
otherwise the file summary and its errors are appended and the running
total advances. -/
def processFile (pf : String → Option ℚ) (env : RunEnv)
    (s : RunSummary) (name : String) : RunSummary :=
  match compare_sheets pf (env.fenv name) with
  | Except.ok eff =>
      { s with
        files_processed := s.files_processed ++ [eff.summary]
        total_differences := s.total_differences + eff.summary.total_differences
        errors := s.errors ++ eff.summary.errors }
  | Except.error e =>
      { s with errors := s.errors ++ [e] }

/-- `run_comparison`: an empty matched set returns at once (before the
report step); otherwise every matched file is processed and the summary
report is generated at the end. -/
def run_comparison (pf : String → Option ℚ) (env : RunEnv) : RunSummary :=
  if env.matched.isEmpty then
    initRunSummary
  else
    let s := env.matched.foldl (processFile pf env) initRunSummary
    { s with report_generated := true }

/-!  Concrete fixtures used by the witnesses and counterexamples. -/

/-- A template-derived output grid with nothing in it. -/
def blankGrid : ℕ → ℕ → CellValue := fun _ _ => CellValue.null

/-- The traversal state at the start of a sheet comparison. -/
def st0 : SheetState := { output := blankGrid, result := initSheetResult }

/-- A one-cell sheet holding the same value everywhere. -/
def constSheet (v : CellValue) : Sheet :=
  { max_row := 1, max_col := 1, val := fun _ _ => v }

/-- A workbook with the single sheet name "Sheet1". -/
def wbA : Workbook :=
  { sheetnames := ["Sheet1"], grid := fun _ => constSheet CellValue.null }

/-- A workbook with the single sheet name "Other". -/
def wbB : Workbook :=
  { sheetnames := ["Other"], grid := fun _ => constSheet CellValue.null }

/-- All three loads succeed but the sheet-name sets are disjoint. -/
def envNoCommon : FileEnv :=
  { filename := "report.xlsx"
    copy_ok := true
    load_new := some wbA
    load_prev := some wbA
    load_output := some wbB
    sheet_fails := fun _ => false
    save_ok := true }

/-- All three loads succeed and "Sheet1" is common; the save succeeds. -/
def envCommon : FileEnv :=
  { filename := "report.xlsx"
    copy_ok := true
    load_new := some wbA
    load_prev := some wbA
    load_output := some wbA
    sheet_fails := fun _ => false
    save_ok := true }

/-- Loading the new workbook raises. -/
def envLoadFail : FileEnv :=
  { filename := "report.xlsx"
    copy_ok := true
    load_new := Option.none
    load_prev := some wbA
    load_output := some wbA
    sheet_fails := fun _ => false
    save_ok := true }

/-- A run whose matched-file set is empty. -/
def runEnvEmpty : RunEnv :=
  { matched := [], fenv := fun _ => envCommon }

/-- A run with one matched file whose workbook loading fails. -/
def runEnvLoadFail : RunEnv :=
  { matched := ["report.xlsx"], fenv := fun _ => envLoadFail }

/-!  Observables of one `compare_sheets` call. -/

/-- All three workbooks were opened on the taken exit path. -/
def openedAllWb : Except String CompareEffects → Bool
  | Except.ok eff => eff.opened_new && eff.opened_prev && eff.opened_output
  | Except.error _ => false

/-- All three workbooks were closed before returning. -/
def closedAllWb : Except String CompareEffects → Bool
  | Except.ok eff => eff.closed_new && eff.closed_prev && eff.closed_output
  | Except.error _ => false

/-- The `status` field of the returned file summary (`Option.none` when the
key was never set, or when the call raised). -/
def statusOf : Except String CompareEffects → Option FileStatus
  | Except.ok eff => eff.summary.status
  | Except.error _ => Option.none

/-- The `sheets_processed` count of the returned file summary. -/
def sheetsProcessedOf : Except String CompareEffects → ℕ
  | Except.ok eff => eff.summary.sheets_processed
  | Except.error _ => 0

/-- The error list of the returned file summary (or the propagated error). -/
def errorsOf : Except String CompareEffects → List String
  | Except.ok eff => eff.summary.errors
  | Except.error e => [e]

/-- The `sheet_details` of the returned file summary. -/
def sheetDetailsOf : Except String CompareEffects → List (String × SheetResult)
  | Except.ok eff => eff.summary.sheet_details
  | Except.error _ => []

/-!  Helper lemmas about the numeric classifier and the decision table. -/

theorem is_numeric_ne_null {pf : String → Option ℚ} {v : CellValue}
    (h : is_numeric pf v = true) : v ≠ CellValue.null := by
  intro hv
  subst hv
  simp [is_numeric] at h

theorem is_numeric_not_empty {pf : String → Option ℚ} {v : CellValue}
    (h : is_numeric pf v = true) : isEmptyVal v = false := by
  cases v with
  | null => simp [is_numeric] at h
  | num q => rfl
  | str s =>
      by_cases hs : s = ""
      · subst hs; simp [is_numeric] at h
      · simp [isEmptyVal, hs]

theorem is_numeric_pyFloat {pf : String → Option ℚ} {v : CellValue}
    (h : is_numeric pf v = true) : ∃ a, pyFloat pf v = some a := by
  unfold is_numeric at h
  split at h
  · cases h
  · exact Option.isSome_iff_exists.mp h

theorem is_numeric_floatOrZero {pf : String → Option ℚ} {v : CellValue}
    (h : is_numeric pf v = true) : floatOrZero pf v = pyFloat pf v := by
  unfold floatOrZero
  rw [if_neg (is_numeric_ne_null h)]

theorem compareCell_self (pf : String → Option ℚ) (v : CellValue) :
    compareCell pf v v = Option.none := by
  unfold compareCell
  split
  · rfl
  · rw [if_pos rfl]

theorem compareCell_both_numeric {pf : String → Option ℚ} {nv pv : CellValue}
    {a b : ℚ} (hne : nv ≠ pv)
    (hn : is_numeric pf nv = true) (hp : is_numeric pf pv = true)
    (ha : pyFloat pf nv = some a) (hb : pyFloat pf pv = some b) :
    compareCell pf nv pv = some (CellValue.num (a - b), DiffKind.numeric) := by
  unfold compareCell
  rw [is_numeric_not_empty hn]
  simp [hne, hn, hp, is_numeric_floatOrZero hn, is_numeric_floatOrZero hp, ha, hb]

theorem compareCell_new_numeric {pf : String → Option ℚ} {nv pv : CellValue}
    {a : ℚ} (hne : nv ≠ pv)
    (hn : is_numeric pf nv = true) (hp : is_numeric pf pv = false)
    (ha : pyFloat pf nv = some a) :
    compareCell pf nv pv = some (CellValue.num a, DiffKind.numeric) := by
  unfold compareCell
  rw [is_numeric_not_empty hn]
  simp [hne, hn, hp, ha]

theorem compareCell_text {pf : String → Option ℚ} {nv pv : CellValue}
    (hne : nv ≠ pv) (hn : is_numeric pf nv = false)
    (hboth : ¬(isEmptyVal nv = true ∧ isEmptyVal pv = true)) :
    compareCell pf nv pv = some (nv, DiffKind.textual) := by
  have h1 : (isEmptyVal nv && isEmptyVal pv) = false := by
    cases ha : isEmptyVal nv <;> cases hb : isEmptyVal pv <;> simp_all
  unfold compareCell
  by_cases hp : is_numeric pf pv = true
  · simp [h1, hne, hn, hp]
  · rw [Bool.not_eq_true] at hp
    simp [h1, hne, hn, hp]

theorem compareCell_num_str (pf : String → Option ℚ) (q : ℚ) (s : String) :
    compareCell pf (CellValue.num q) (CellValue.str s) ≠ Option.none := by
  have hq : is_numeric pf (CellValue.num q) = true := by
    simp [is_numeric, pyFloat]
  by_cases hs : is_numeric pf (CellValue.str s) = true
  · obtain ⟨b, hb⟩ := is_numeric_pyFloat hs
    have hb' : pf s = some b := hb
    simp [compareCell, isEmptyVal, hq, hs, floatOrZero, pyFloat, hb']
  · rw [Bool.not_eq_true] at hs
    simp [compareCell, isEmptyVal, hq, hs, pyFloat]

theorem compareCell_str_num (pf : String → Option ℚ) (s : String) (q : ℚ) :
    compareCell pf (CellValue.str s) (CellValue.num q) ≠ Option.none := by
  have hq : is_numeric pf (CellValue.num q) = true := by
    simp [is_numeric, pyFloat]
  by_cases hs : is_numeric pf (CellValue.str s) = true
  · obtain ⟨b, hb⟩ := is_numeric_pyFloat hs
    have hb' : pf s = some b := hb
    simp [compareCell, isEmptyVal, hq, hs, floatOrZero, pyFloat, hb']
  · rw [Bool.not_eq_true] at hs
    simp [compareCell, isEmptyVal, hq, hs, pyFloat]

/-!  Helper lemmas about one traversal step and the whole traversal. -/

theorem stepCell_skip {pf : String → Option ℚ} {ns ps : Sheet}
    {st : SheetState} {r c : ℕ}
    (h : compareCell pf (ns.val r c) (ps.val r c) = Option.none) :
    stepCell pf ns ps st (r, c) =
      { st with result :=
          { st.result with cells_compared := st.result.cells_compared + 1 } } := by
  simp [stepCell, h]

theorem stepCell_write {pf : String → Option ℚ} {ns ps : Sheet}
    {st : SheetState} {r c : ℕ} {v : CellValue} {k : DiffKind}
    (h : compareCell pf (ns.val r c) (ps.val r c) = some (v, k)) :
    stepCell pf ns ps st (r, c) =
      { output := writeCell st.output r c v
        result := recordDiff
          { st.result with cells_compared := st.result.cells_compared + 1 } k } := by
  simp [stepCell, h]

theorem writeCell_same (g : ℕ → ℕ → CellValue) (r c : ℕ) (v : CellValue) :
    writeCell g r c v r c = v := by
  simp [writeCell]

theorem stepCell_cells (pf : String → Option ℚ) (ns ps : Sheet)
    (st : SheetState) (rc : ℕ × ℕ) :
    (stepCell pf ns ps st rc).result.cells_compared
      = st.result.cells_compared + 1 := by
  unfold stepCell
  cases h : compareCell pf (ns.val rc.1 rc.2) (ps.val rc.1 rc.2) with
  | none => rfl
  | some vk => cases vk with
    | mk v k => simp [recordDiff]

/-- The running invariant of the counters. -/
def counterInv (res : SheetResult) : Prop :=
  res.differences_count = res.numeric_differences + res.text_differences

theorem counterInv_step (pf : String → Option ℚ) (ns ps : Sheet)
    (st : SheetState) (rc : ℕ × ℕ)
    (h : counterInv st.result) : counterInv (stepCell pf ns ps st rc).result := by
  unfold counterInv at h ⊢
  unfold stepCell
  cases hc : compareCell pf (ns.val rc.1 rc.2) (ps.val rc.1 rc.2) with
  | none => simpa using h
  | some vk =>
      cases vk with
      | mk v k => cases k <;> simp [recordDiff] <;> omega

theorem counterInv_fold (pf : String → Option ℚ) (ns ps : Sheet)
    (l : List (ℕ × ℕ)) :
    ∀ st : SheetState, counterInv st.result →
      counterInv ((l.foldl (stepCell pf ns ps) st)).result := by
  induction l with
  | nil => intro st h; exact h
  | cons x xs ih =>
      intro st h
      exact ih _ (counterInv_step pf ns ps st x h)

theorem cells_fold (pf : String → Option ℚ) (ns ps : Sheet)
    (l : List (ℕ × ℕ)) :
    ∀ st : SheetState,
      ((l.foldl (stepCell pf ns ps) st)).result.cells_compared
        = st.result.cells_compared + l.length := by
  induction l with
  | nil => intro st; rfl
  | cons x xs ih =>
      intro st
      rw [List.foldl_cons, ih, stepCell_cells]
      simp [List.length_cons]
      omega

theorem coords_length (mr mc : ℕ) : (coords mr mc).length = mr * mc := by
  induction mr with
  | zero => simp [coords]
  | succ n ih =>
      unfold coords at ih ⊢
      rw [List.range_succ, List.flatMap_append, List.length_append, ih]
      simp [Nat.succ_mul]

/-!  The claims. -/

/-- Claim C1: at a coordinate where the two values differ and both are
classified numeric, the output cell is set to `float(new) - float(prev)`
and the difference is counted as numeric: `differences_count` and
`numeric_differences` each increase by one while `text_differences` is
unchanged (instantiated by the witness at new = 10, prev = 7, where the
output value is exactly 3). -/
theorem C1_numeric_delta (pf : String → Option ℚ) (ns ps : Sheet)
    (st : SheetState) (r c : ℕ)
    (hne : ns.val r c ≠ ps.val r c)
    (hn : is_numeric pf (ns.val r c) = true)
    (hp : is_numeric pf (ps.val r c) = true) :
    ∃ a b : ℚ,
      pyFloat pf (ns.val r c) = some a ∧
      pyFloat pf (ps.val r c) = some b ∧
      (stepCell pf ns ps st (r, c)).output r c = CellValue.num (a - b) ∧
      (stepCell pf ns ps st (r, c)).result.differences_count
        = st.result.differences_count + 1 ∧
      (stepCell pf ns ps st (r, c)).result.numeric_differences
        = st.result.numeric_differences + 1 ∧
      (stepCell pf ns ps st (r, c)).result.text_differences
        = st.result.text_differences := by
  obtain ⟨a, ha⟩ := is_numeric_pyFloat hn
  obtain ⟨b, hb⟩ := is_numeric_pyFloat hp
  refine ⟨a, b, ha, hb, ?_, ?_, ?_, ?_⟩ <;>
    rw [stepCell_write (compareCell_both_numeric hne hn hp ha hb)] <;>
    simp [writeCell, recordDiff]

/-- Claim C1 witness: new = 10, prev = 7 at coordinate (1, 1); the output
cell receives exactly the value 3 and the numeric counters advance. -/
theorem C1_witness :
    ((constSheet (CellValue.num 10)).val 1 1 ≠ (constSheet (CellValue.num 7)).val 1 1) ∧
    is_numeric sampleParse ((constSheet (CellValue.num 10)).val 1 1) = true ∧
    is_numeric sampleParse ((constSheet (CellValue.num 7)).val 1 1) = true ∧
    (∃ a b : ℚ,
      pyFloat sampleParse ((constSheet (CellValue.num 10)).val 1 1) = some a ∧
      pyFloat sampleParse ((constSheet (CellValue.num 7)).val 1 1) = some b ∧
      (stepCell sampleParse (constSheet (CellValue.num 10)) (constSheet (CellValue.num 7))
        st0 (1, 1)).output 1 1 = CellValue.num (a - b) ∧
      (stepCell sampleParse (constSheet (CellValue.num 10)) (constSheet (CellValue.num 7))
        st0 (1, 1)).result.differences_count = st0.result.differences_count + 1 ∧
      (stepCell sampleParse (constSheet (CellValue.num 10)) (constSheet (CellValue.num 7))
        st0 (1, 1)).result.numeric_differences = st0.result.numeric_differences + 1 ∧
      (stepCell sampleParse (constSheet (CellValue.num 10)) (constSheet (CellValue.num 7))
        st0 (1, 1)).result.text_differences = st0.result.text_differences) ∧
    (stepCell sampleParse (constSheet (CellValue.num 10)) (constSheet (CellValue.num 7))
      st0 (1, 1)).output 1 1 = CellValue.num 3 :=
  ⟨by norm_num [constSheet],
   by simp [constSheet, is_numeric, pyFloat],
   by simp [constSheet, is_numeric, pyFloat],
   C1_numeric_delta sampleParse (constSheet (CellValue.num 10)) (constSheet (CellValue.num 7))
     st0 1 1 (by norm_num [constSheet])
     (by simp [constSheet, is_numeric, pyFloat])
     (by simp [constSheet, is_numeric, pyFloat]),
   by
     have hc : compareCell sampleParse ((constSheet (CellValue.num 10)).val 1 1)
         ((constSheet (CellValue.num 7)).val 1 1)
         = some (CellValue.num 3, DiffKind.numeric) := by
       show compareCell sampleParse (CellValue.num 10) (CellValue.num 7)
         = some (CellValue.num 3, DiffKind.numeric)
       have ha : pyFloat sampleParse (CellValue.num 10) = some 10 := rfl
       have hb : pyFloat sampleParse (CellValue.num 7) = some 7 := rfl
       have h3 : (10 : ℚ) - 7 = 3 := by norm_num
       have hcc := compareCell_both_numeric
         (show CellValue.num 10 ≠ CellValue.num 7 by norm_num)
         (show is_numeric sampleParse (CellValue.num 10) = true by simp [is_numeric, pyFloat])
         (show is_numeric sampleParse (CellValue.num 7) = true by simp [is_numeric, pyFloat])
         ha hb
       rw [h3] at hcc
       exact hcc
     rw [stepCell_write hc]
     simp [writeCell]⟩

/-- Claim C2: at a coordinate where the two values are equal (strict,
type-aware equality), no action is taken: the output grid and every
difference counter (`differences_found`, `differences_count`,
`numeric_differences`, `text_differences`) are unchanged; and a numeric
value and a text value are never equal — comparing them always records a
difference. -/
theorem C2_strict_equality (pf : String → Option ℚ) (ns ps : Sheet)
    (st : SheetState) (r c : ℕ)
    (heq : ns.val r c = ps.val r c) :
    (stepCell pf ns ps st (r, c)).output = st.output ∧
    (stepCell pf ns ps st (r, c)).result.differences_found
      = st.result.differences_found ∧
    (stepCell pf ns ps st (r, c)).result.differences_count
      = st.result.differences_count ∧
    (stepCell pf ns ps st (r, c)).result.numeric_differences
      = st.result.numeric_differences ∧
    (stepCell pf ns ps st (r, c)).result.text_differences
      = st.result.text_differences ∧
    (∀ (q : ℚ) (s : String), CellValue.num q ≠ CellValue.str s) ∧
    (∀ (q : ℚ) (s : String),
      compareCell pf (CellValue.num q) (CellValue.str s) ≠ Option.none) ∧
    (∀ (q : ℚ) (s : String),
      compareCell pf (CellValue.str s) (CellValue.num q) ≠ Option.none) := by
  have hc : compareCell pf (ns.val r c) (ps.val r c) = Option.none := by
    rw [heq]
    exact compareCell_self pf (ps.val r c)
  rw [stepCell_skip hc]
  refine ⟨rfl, rfl, rfl, rfl, rfl, ?_, ?_, ?_⟩
  · intro q s h
    exact CellValue.noConfusion h
  · exact fun q s => compareCell_num_str pf q s
  · exact fun q s => compareCell_str_num pf s q

/-- Claim C2 witness: both cells hold the number 5; nothing changes. -/
theorem C2_witness :
    (constSheet (CellValue.num 5)).val 1 1 = (constSheet (CellValue.num 5)).val 1 1 ∧
    ((stepCell sampleParse (constSheet (CellValue.num 5)) (constSheet (CellValue.num 5))
        st0 (1, 1)).output = st0.output ∧
      (stepCell sampleParse (constSheet (CellValue.num 5)) (constSheet (CellValue.num 5))
        st0 (1, 1)).result.differences_found = st0.result.differences_found ∧
      (stepCell sampleParse (constSheet (CellValue.num 5)) (constSheet (CellValue.num 5))
        st0 (1, 1)).result.differences_count = st0.result.differences_count ∧
      (stepCell sampleParse (constSheet (CellValue.num 5)) (constSheet (CellValue.num 5))
        st0 (1, 1)).result.numeric_differences = st0.result.numeric_differences ∧
      (stepCell sampleParse (constSheet (CellValue.num 5)) (constSheet (CellValue.num 5))
        st0 (1, 1)).result.text_differences = st0.result.text_differences ∧
      (∀ (q : ℚ) (s : String), CellValue.num q ≠ CellValue.str s) ∧
      (∀ (q : ℚ) (s : String),
        compareCell sampleParse (CellValue.num q) (CellValue.str s) ≠ Option.none) ∧
      (∀ (q : ℚ) (s : String),
        compareCell sampleParse (CellValue.str s) (CellValue.num q) ≠ Option.none)) :=
  ⟨rfl, C2_strict_equality sampleParse (constSheet (CellValue.num 5))
    (constSheet (CellValue.num 5)) st0 1 1 rfl⟩

/-- Claim C3: at a coordinate where the values differ, the new value is
classified numeric and the previous one is not: if `float(new)` parses, the
parsed value is written to the output cell and counted as a numeric
difference; if the parse fails, nothing is written and no counter changes
(within this model the failure branch is unreachable, since the classifier
itself already required the parse to succeed). -/
theorem C3_new_numeric_prev_not (pf : String → Option ℚ) (ns ps : Sheet)
    (st : SheetState) (r c : ℕ)
    (hne : ns.val r c ≠ ps.val r c)
    (hn : is_numeric pf (ns.val r c) = true)
    (hp : is_numeric pf (ps.val r c) = false) :
    (∀ a : ℚ, pyFloat pf (ns.val r c) = some a →
      (stepCell pf ns ps st (r, c)).output r c = CellValue.num a ∧
      (stepCell pf ns ps st (r, c)).result.differences_count
        = st.result.differences_count + 1 ∧
      (stepCell pf ns ps st (r, c)).result.numeric_differences
        = st.result.numeric_differences + 1 ∧
      (stepCell pf ns ps st (r, c)).result.text_differences
        = st.result.text_differences) ∧
    (pyFloat pf (ns.val r c) = Option.none →
      (stepCell pf ns ps st (r, c)).output = st.output ∧
      (stepCell pf ns ps st (r, c)).result.differences_count
        = st.result.differences_count ∧
      (stepCell pf ns ps st (r, c)).result.numeric_differences
        = st.result.numeric_differences ∧
      (stepCell pf ns ps st (r, c)).result.text_differences
        = st.result.text_differences) := by
  constructor
  · intro a ha
    rw [stepCell_write (compareCell_new_numeric hne hn hp ha)]
    exact ⟨writeCell_same _ _ _ _, by simp [recordDiff], by simp [recordDiff],
      by simp [recordDiff]⟩
  · intro h0
    obtain ⟨a, ha⟩ := is_numeric_pyFloat hn
    rw [ha] at h0
    simp at h0

/-- Claim C3 witness: new = "12" (parses to 12), prev = "abc"
(not numeric); the output cell receives the number 12. -/
theorem C3_witness :
    ((constSheet (CellValue.str "12")).val 1 1 ≠ (constSheet (CellValue.str "abc")).val 1 1) ∧
    is_numeric sampleParse ((constSheet (CellValue.str "12")).val 1 1) = true ∧
    is_numeric sampleParse ((constSheet (CellValue.str "abc")).val 1 1) = false ∧
    (∀ a : ℚ,
      pyFloat sampleParse ((constSheet (CellValue.str "12")).val 1 1) = some a →
      (stepCell sampleParse (constSheet (CellValue.str "12")) (constSheet (CellValue.str "abc"))
        st0 (1, 1)).output 1 1 = CellValue.num a ∧
      (stepCell sampleParse (constSheet (CellValue.str "12")) (constSheet (CellValue.str "abc"))
        st0 (1, 1)).result.differences_count = st0.result.differences_count + 1 ∧
      (stepCell sampleParse (constSheet (CellValue.str "12")) (constSheet (CellValue.str "abc"))
        st0 (1, 1)).result.numeric_differences = st0.result.numeric_differences + 1 ∧
      (stepCell sampleParse (constSheet (CellValue.str "12")) (constSheet (CellValue.str "abc"))
        st0 (1, 1)).result.text_differences = st0.result.text_differences) ∧
    (stepCell sampleParse (constSheet (CellValue.str "12")) (constSheet (CellValue.str "abc"))
      st0 (1, 1)).output 1 1 = CellValue.num 12 :=
  ⟨by simp [constSheet],
   by simp [constSheet, is_numeric, pyFloat, sampleParse],
   by simp [constSheet, is_numeric, pyFloat, sampleParse],
   (C3_new_numeric_prev_not sampleParse (constSheet (CellValue.str "12"))
     (constSheet (CellValue.str "abc")) st0 1 1
     (by simp [constSheet])
     (by simp [constSheet, is_numeric, pyFloat, sampleParse])
     (by simp [constSheet, is_numeric, pyFloat, sampleParse])).1,
   by
     have hc : compareCell sampleParse ((constSheet (CellValue.str "12")).val 1 1)
         ((constSheet (CellValue.str "abc")).val 1 1)
         = some (CellValue.num 12, DiffKind.numeric) := by
       simp [constSheet, compareCell, is_numeric, pyFloat, isEmptyVal, floatOrZero, sampleParse]
     rw [stepCell_write hc]
     simp [writeCell]⟩

/-- Claim C6: at a coordinate where both values are empty (null or the
empty string, in any combination), the coordinate is skipped: the output
grid and every difference counter are unchanged. -/
theorem C6_both_empty (pf : String → Option ℚ) (ns ps : Sheet)
    (st : SheetState) (r c : ℕ)
    (hn : isEmptyVal (ns.val r c) = true)
    (hp : isEmptyVal (ps.val r c) = true) :
    (stepCell pf ns ps st (r, c)).output = st.output ∧
    (stepCell pf ns ps st (r, c)).result.differences_found
      = st.result.differences_found ∧
    (stepCell pf ns ps st (r, c)).result.differences_count
      = st.result.differences_count ∧
    (stepCell pf ns ps st (r, c)).result.numeric_differences
      = st.result.numeric_differences ∧
    (stepCell pf ns ps st (r, c)).result.text_differences
      = st.result.text_differences := by
  have hc : compareCell pf (ns.val r c) (ps.val r c) = Option.none := by
    unfold compareCell
    rw [hn, hp]
    simp
  rw [stepCell_skip hc]
  exact ⟨rfl, rfl, rfl, rfl, rfl⟩

/-- Claim C6 witness: new = null, prev = "" (the mixed combination);
the coordinate is skipped. -/
theorem C6_witness :
    isEmptyVal ((constSheet CellValue.null).val 1 1) = true ∧
    isEmptyVal ((constSheet (CellValue.str "")).val 1 1) = true ∧
    ((stepCell sampleParse (constSheet CellValue.null) (constSheet (CellValue.str ""))
        st0 (1, 1)).output = st0.output ∧
      (stepCell sampleParse (constSheet CellValue.null) (constSheet (CellValue.str ""))
        st0 (1, 1)).result.differences_found = st0.result.differences_found ∧
      (stepCell sampleParse (constSheet CellValue.null) (constSheet (CellValue.str ""))
        st0 (1, 1)).result.differences_count = st0.result.differences_count ∧
      (stepCell sampleParse (constSheet CellValue.null) (constSheet (CellValue.str ""))
        st0 (1, 1)).result.numeric_differences = st0.result.numeric_differences ∧
      (stepCell sampleParse (constSheet CellValue.null) (constSheet (CellValue.str ""))
        st0 (1, 1)).result.text_differences = st0.result.text_differences) :=
  ⟨rfl, by simp [constSheet, isEmptyVal],
   C6_both_empty sampleParse (constSheet CellValue.null) (constSheet (CellValue.str ""))
     st0 1 1 rfl (by simp [constSheet, isEmptyVal])⟩

/-- Claim C7 counterexample: take new = null and prev = "".  The two
values differ and the new value is not classified numeric, so the claim
demands a textual write — but the decision table's earlier both-empty rule
fires first and the coordinate is skipped: nothing is written and no
counter changes. -/
theorem C7_counterexample :
    CellValue.null ≠ CellValue.str "" ∧
    is_numeric sampleParse CellValue.null = false ∧
    compareCell sampleParse CellValue.null (CellValue.str "") = Option.none ∧
    (stepCell sampleParse (constSheet CellValue.null) (constSheet (CellValue.str ""))
      st0 (1, 1)).output = st0.output ∧
    (stepCell sampleParse (constSheet CellValue.null) (constSheet (CellValue.str ""))
      st0 (1, 1)).result.differences_count = st0.result.differences_count ∧
    (stepCell sampleParse (constSheet CellValue.null) (constSheet (CellValue.str ""))
      st0 (1, 1)).result.text_differences = st0.result.text_differences := by
  have hc : compareCell sampleParse CellValue.null (CellValue.str "") = Option.none := by
    simp [compareCell, isEmptyVal]
  have hc' : compareCell sampleParse ((constSheet CellValue.null).val 1 1)
      ((constSheet (CellValue.str "")).val 1 1) = Option.none := hc
  rw [stepCell_skip hc']
  exact ⟨by simp, by simp [is_numeric], hc, rfl, rfl, rfl⟩

/-- Claim C7 (amended): at a coordinate where the values differ, the new
value is not classified numeric, and the two values are not both empty,
the raw new value — possibly empty — is written verbatim to the output
cell and the difference is counted as textual: `differences_count` and
`text_differences` each increase by one while `numeric_differences` is
unchanged. -/
theorem C7_text_write (pf : String → Option ℚ) (ns ps : Sheet)
    (st : SheetState) (r c : ℕ)
    (hne : ns.val r c ≠ ps.val r c)
    (hn : is_numeric pf (ns.val r c) = false)
    (hboth : ¬(isEmptyVal (ns.val r c) = true ∧ isEmptyVal (ps.val r c) = true)) :
    (stepCell pf ns ps st (r, c)).output r c = ns.val r c ∧
    (stepCell pf ns ps st (r, c)).result.differences_count
      = st.result.differences_count + 1 ∧
    (stepCell pf ns ps st (r, c)).result.text_differences
      = st.result.text_differences + 1 ∧
    (stepCell pf ns ps st (r, c)).result.numeric_differences
      = st.result.numeric_differences := by
  rw [stepCell_write (compareCell_text hne hn hboth)]
  exact ⟨writeCell_same _ _ _ _, by simp [recordDiff], by simp [recordDiff],
    by simp [recordDiff]⟩

/-- Claim C7 witness: new = "n/a" (text), prev = 10 (numeric); the output
cell receives "n/a" and the textual counters advance. -/
theorem C7_witness :
    ((constSheet (CellValue.str "n/a")).val 1 1 ≠ (constSheet (CellValue.num 10)).val 1 1) ∧
    is_numeric sampleParse ((constSheet (CellValue.str "n/a")).val 1 1) = false ∧
    ¬(isEmptyVal ((constSheet (CellValue.str "n/a")).val 1 1) = true ∧
      isEmptyVal ((constSheet (CellValue.num 10)).val 1 1) = true) ∧
    ((stepCell sampleParse (constSheet (CellValue.str "n/a")) (constSheet (CellValue.num 10))
        st0 (1, 1)).output 1 1 = (constSheet (CellValue.str "n/a")).val 1 1 ∧
      (stepCell sampleParse (constSheet (CellValue.str "n/a")) (constSheet (CellValue.num 10))
        st0 (1, 1)).result.differences_count = st0.result.differences_count + 1 ∧
      (stepCell sampleParse (constSheet (CellValue.str "n/a")) (constSheet (CellValue.num 10))
        st0 (1, 1)).result.text_differences = st0.result.text_differences + 1 ∧
      (stepCell sampleParse (constSheet (CellValue.str "n/a")) (constSheet (CellValue.num 10))
        st0 (1, 1)).result.numeric_differences = st0.result.numeric_differences) :=
  ⟨by simp [constSheet],
   by simp [constSheet, is_numeric, pyFloat, sampleParse],
   by simp [constSheet, isEmptyVal],
   C7_text_write sampleParse (constSheet (CellValue.str "n/a")) (constSheet (CellValue.num 10))
     st0 1 1 (by simp [constSheet])
     (by simp [constSheet, is_numeric, pyFloat, sampleParse])
     (by simp [constSheet, isEmptyVal])⟩

/-- Claim C4: for every pair of input grids the invariant
`differences_count = numeric_differences + text_differences` holds at
every intermediate point of the traversal (after folding any list of
coordinates from the initial state) and after the whole sheet
comparison. -/
theorem C4_counter_invariant (pf : String → Option ℚ) (ns ps : Sheet)
    (out0 : ℕ → ℕ → CellValue) (l : List (ℕ × ℕ)) :
    counterInv ((l.foldl (stepCell pf ns ps)
      { output := out0, result := initSheetResult }).result) ∧
    counterInv ((compare_single_sheet pf ns ps out0).result) := by
  have h0 : counterInv (SheetState.mk out0 initSheetResult).result := by
    simp [counterInv, initSheetResult]
  exact ⟨counterInv_fold pf ns ps l _ h0,
    counterInv_fold pf ns ps (coords (max ns.max_row ps.max_row)
      (max ns.max_col ps.max_col)) _ h0⟩

/-- Claim C5: after every sheet comparison, `cells_compared` equals the
union extent `max(new.max_row, prev.max_row) * max(new.max_col,
prev.max_col)`, the two dimensions maximized independently, regardless of
how many differences were found. -/
theorem C5_cells_compared (pf : String → Option ℚ) (ns ps : Sheet)
    (out0 : ℕ → ℕ → CellValue) :
    (compare_single_sheet pf ns ps out0).result.cells_compared
      = max ns.max_row ps.max_row * max ns.max_col ps.max_col := by
  show ((coords (max ns.max_row ps.max_row) (max ns.max_col ps.max_col)).foldl
    (stepCell pf ns ps) { output := out0, result := initSheetResult }).result.cells_compared = _
  rw [cells_fold, coords_length]
  simp [initSheetResult]


/-- Claim C8 counterexample: with all three loads succeeding but no common
sheet, the function returns through the early no-common-sheets exit, which
bypasses the close step: all three workbooks were opened and not all
(in fact none) are closed before returning. -/
theorem C8_counterexample :
    openedAllWb (compare_sheets sampleParse envNoCommon) = true ∧
    closedAllWb (compare_sheets sampleParse envNoCommon) = false := by
  constructor <;>
    simp [compare_sheets, envNoCommon, commonSheets, wbA, wbB,
      openedAllWb, closedAllWb, initFileSummary]

/-- Claim C8 (amended): on the exit paths that reach the save step — all
three loads succeed and at least one common sheet exists — all three
workbooks are closed before the function returns (whether or not the save
succeeds); on the load-failure and no-common-sheets early returns no
workbook is closed. -/
theorem C8_close_on_save_path (pf : String → Option ℚ) (env : FileEnv)
    (nwb pwb owb : Workbook)
    (hc : env.copy_ok = true)
    (h1 : env.load_new = some nwb) (h2 : env.load_prev = some pwb)
    (h3 : env.load_output = some owb)
    (hcs : commonSheets nwb pwb owb ≠ []) :
    closedAllWb (compare_sheets pf env) = true := by
  have he : (commonSheets nwb pwb owb).isEmpty = false := by
    cases h : commonSheets nwb pwb owb with
    | nil => exact absurd h hcs
    | cons a l => rfl
  unfold compare_sheets
  rw [h1, h2, h3]
  cases hs : env.save_ok <;> simp [hc, he, hs, closedAllWb]

/-- Claim C8 witness: a concrete environment in which all three loads
succeed, "Sheet1" is common and the save succeeds; the function closes
all three workbooks. -/
theorem C8_witness :
    envCommon.copy_ok = true ∧
    envCommon.load_new = some wbA ∧
    envCommon.load_prev = some wbA ∧
    envCommon.load_output = some wbA ∧
    commonSheets wbA wbA wbA ≠ [] ∧
    closedAllWb (compare_sheets sampleParse envCommon) = true :=
  ⟨rfl, rfl, rfl, rfl, by simp [commonSheets, wbA],
   C8_close_on_save_path sampleParse envCommon wbA wbA wbA rfl rfl rfl rfl
     (by simp [commonSheets, wbA])⟩

/-- Claim C9 counterexample: when loading the new workbook fails, the
returned file summary records the error and zero sheets, but it carries no
overall status at all (the status key is only ever set at the save step),
contradicting that every file result carries completed or failed. -/
theorem C9_counterexample :
    sheetsProcessedOf (compare_sheets sampleParse envLoadFail) = 0 ∧
    errorsOf (compare_sheets sampleParse envLoadFail) = ["Error loading workbooks"] ∧
    statusOf (compare_sheets sampleParse envLoadFail) = Option.none ∧
    statusOf (compare_sheets sampleParse envLoadFail) ≠ some FileStatus.completed ∧
    statusOf (compare_sheets sampleParse envLoadFail) ≠ some FileStatus.failed := by
  refine ⟨?_, ?_, ?_, ?_, ?_⟩ <;>
    simp [compare_sheets, envLoadFail, statusOf, sheetsProcessedOf, errorsOf,
      initFileSummary]

/-- Claim C9 (amended): if loading any of the three input workbooks fails,
the per-file comparison records the loading error and returns immediately
with zero sheets processed and no sheet details — but the returned file
result carries no status field (neither completed nor failed), since the
status key is only set at the save step. -/
theorem C9_load_failure (pf : String → Option ℚ) (env : FileEnv)
    (hc : env.copy_ok = true)
    (h : env.load_new = Option.none ∨ env.load_prev = Option.none ∨
      env.load_output = Option.none) :
    sheetsProcessedOf (compare_sheets pf env) = 0 ∧
    errorsOf (compare_sheets pf env) = ["Error loading workbooks"] ∧
    sheetDetailsOf (compare_sheets pf env) = [] ∧
    statusOf (compare_sheets pf env) = Option.none := by
  cases hn : env.load_new with
  | none =>
      refine ⟨?_, ?_, ?_, ?_⟩ <;>
        simp [compare_sheets, hc, hn, statusOf, sheetsProcessedOf, errorsOf,
          sheetDetailsOf, initFileSummary]
  | some nwb =>
      cases hp : env.load_prev with
      | none =>
          refine ⟨?_, ?_, ?_, ?_⟩ <;>
            simp [compare_sheets, hc, hn, hp, statusOf, sheetsProcessedOf, errorsOf,
              sheetDetailsOf, initFileSummary]
      | some pwb =>
          cases ho : env.load_output with
          | none =>
              refine ⟨?_, ?_, ?_, ?_⟩ <;>
                simp [compare_sheets, hc, hn, hp, ho, statusOf, sheetsProcessedOf,
                  errorsOf, sheetDetailsOf, initFileSummary]
          | some owb =>
              rcases h with h | h | h
              · rw [hn] at h; cases h
              · rw [hp] at h; cases h
              · rw [ho] at h; cases h

/-- Claim C9 witness: the concrete environment whose new-workbook load
fails; the summary has zero sheets, the loading error, and no status. -/
theorem C9_witness :
    envLoadFail.copy_ok = true ∧
    envLoadFail.load_new = Option.none ∧
    (sheetsProcessedOf (compare_sheets sampleParse envLoadFail) = 0 ∧
      errorsOf (compare_sheets sampleParse envLoadFail) = ["Error loading workbooks"] ∧
      sheetDetailsOf (compare_sheets sampleParse envLoadFail) = [] ∧
      statusOf (compare_sheets sampleParse envLoadFail) = Option.none) :=
  ⟨rfl, rfl, C9_load_failure sampleParse envLoadFail rfl (Or.inl rfl)⟩

/-- Claim C10 counterexample: a run whose matched-file set is empty
returns before the report step — the summary is never handed to the
reporting collaborator, contradicting that this happens for every run. -/
theorem C10_counterexample :
    runEnvEmpty.matched = [] ∧
    (run_comparison sampleParse runEnvEmpty).report_generated = false :=
  ⟨rfl, rfl⟩

/-- Claim C10 (amended): the run is a total function of its environment —
it always terminates normally with a summary value, and failures surface
only inside that value's error lists, never as exceptions; whenever the
matched-file set is nonempty (even if every file fails), the summary is
handed to the reporting collaborator at the end.  A run with an empty
matched set returns immediately without generating the report. -/
theorem C10_report_generated (pf : String → Option ℚ) (env : RunEnv)
    (h : env.matched ≠ []) :
    (run_comparison pf env).report_generated = true := by
  have he : env.matched.isEmpty = false := by
    cases hm : env.matched with
    | nil => exact absurd hm h
    | cons a l => rfl
  simp [run_comparison, he]

/-- Claim C10 witness: a run with one matched file whose loading fails
entirely; the run still ends by generating the report. -/
theorem C10_witness :
    runEnvLoadFail.matched ≠ [] ∧
    (run_comparison sampleParse runEnvLoadFail).report_generated = true :=
  ⟨by simp [runEnvLoadFail],
   C10_report_generated sampleParse runEnvLoadFail (by simp [runEnvLoadFail])⟩
